import Mathlib

/-!
Verification of the Scope privacy-engine detection-and-scoring pipeline.

The definitions below are a shallow embedding of the TypeScript source:
pure functions become Lean functions, the per-transaction loops become
folds, JavaScript `Map`/`Set` objects (insertion-ordered) become
association lists updated in place, and JavaScript's stable `Array.sort`
becomes a stable insertion sort.  Monetary amounts are rationals
(native transfers carry integer minor units; the code divides by 1e9).
Wall-clock fields (`checkedAt`, `analyzedAt`, timing metadata) and
display-only string extraction (`extractNFTName`) are omitted: no claim
refers to them.
-/

namespace Scope

/-! ## Generic helpers -/

/-- Stable insert for `stableSort`: `x` is placed after every earlier
element `y` with `le y x`, before the rest. -/
def stableInsert (le : α → α → Bool) (x : α) : List α → List α
  | [] => [x]
  | y :: ys => if le y x then y :: stableInsert le x ys else x :: y :: ys

/-- Stable sort (model of JavaScript's stable `Array.prototype.sort`
with a consistent comparator): elements are inserted left-to-right, ties
keep their original relative order. -/
def stableSort (le : α → α → Bool) (l : List α) : List α :=
  l.foldl (fun acc x => stableInsert le x acc) []

/-- ASCII lower-casing of a character (model of the effect of
`String.prototype.toLowerCase` on the ASCII strings involved). -/
def charLower (c : Char) : Char :=
  if 'A' ≤ c ∧ c ≤ 'Z' then Char.ofNat (c.toNat + 32) else c

/-- Lower-case a string character-wise. -/
def strLower (s : String) : String := ⟨s.data.map charLower⟩

/-- Substring test on character lists (model of `String.prototype.includes`). -/
def listContainsSub : List Char → List Char → Bool
  | [], needle => needle.isEmpty
  | c :: rest, needle => needle.isPrefixOf (c :: rest) || listContainsSub rest needle

/-- Substring test on strings (model of `String.prototype.includes`). -/
def strContains (hay needle : String) : Bool := listContainsSub hay.data needle.data

/-! ## Data model (services/helius.ts interfaces)

`AccountData` keeps only the `account` field and `ParsedTransaction`
omits `type`, `source` and `fee`: the detectors never read the dropped
fields.  `events.nft` keeps the `buyer` and `nfts` members it is read
for. -/

structure NativeTransfer where
  fromUserAccount : String
  toUserAccount : String
  amount : Int
deriving DecidableEq

structure TokenTransfer where
  mint : String
  tokenAmount : Rat
  fromUserAccount : String
  toUserAccount : String
  tokenStandard : String
deriving DecidableEq

structure AccountData where
  account : String
deriving DecidableEq

structure NftItem where
  mint : String
  tokenStandard : String
deriving DecidableEq

structure NftEvent where
  buyer : Option String
  nfts : Option (List NftItem)
deriving DecidableEq

structure ParsedTransaction where
  signature : String
  timestamp : Int
  description : String
  feePayer : String
  accountData : List AccountData
  tokenTransfers : List TokenTransfer
  nativeTransfers : List NativeTransfer
  nftEvent : Option NftEvent
deriving DecidableEq

/-! ## Constants (utils/constants.ts) -/

structure CexInfo where
  address : String
  name : String
deriving DecidableEq

def KNOWN_CEX : List CexInfo := [
  ⟨"5tzFkiKscXHK5ZXCGbXZxdw7gTjjD1mBwuoFbhUvuAi9", "Binance"⟩,
  ⟨"9WzDXwBbmkg8ZTbNMqUxvQRAyrZzDsGYdLVL9zYtAWWM", "Binance"⟩,
  ⟨"2ojv9BAiHUrvsm9gxDe7fJSzbNZSJcxZvf8dqmWGHG8S", "Binance"⟩,
  ⟨"H8sMJSCQxfKiFTCfDR3DUMLPwcRbM61LGFJ8N4dK3WjS", "Coinbase"⟩,
  ⟨"GJRs4FwHtemZ5ZE9x3FNvJ8TMwitKTh21yxdRPqn7npE", "Coinbase"⟩,
  ⟨"2AQdpHJ2JpcEgPiATUXjQxA8QmafFegfQwSLWSprPicm", "Coinbase"⟩,
  ⟨"FWznbcNXWQuHTawe9RxvQ2LdCENssh12dsznf4RiouN5", "Kraken"⟩,
  ⟨"7hUdUTkJLwdcmt3jSEeqx4ep91sm1XwBxMDaJae6bD5D", "Kraken"⟩,
  ⟨"CuieVDEDtLo7FypA9SbLM9saXFdb1dsshEkyErMqkRQq", "FTX (defunct)"⟩,
  ⟨"5VCwKtCXgCJ6kit5FybXjvriW3xELsFDhYrPSqtJNmcD", "OKX"⟩,
  ⟨"BmFdpraQhkiDQE6SnfG5omcA1VwzqfXrwtNYBwWTymy6", "KuCoin"⟩]

inductive RiskLevel
  | LOW
  | MEDIUM
  | HIGH
  | CRITICAL
deriving DecidableEq

def SCORE_THRESHOLDS_CRITICAL : Int := 25
def SCORE_THRESHOLDS_HIGH : Int := 50
def SCORE_THRESHOLDS_MEDIUM : Int := 75

def POINT_DEDUCTIONS_CEX_DEPOSIT : Nat := 15
def POINT_DEDUCTIONS_CEX_WITHDRAWAL : Nat := 10
def POINT_DEDUCTIONS_CLUSTER_DETECTED : Nat := 20
def POINT_DEDUCTIONS_NFT_POAP_EXPOSED : Nat := 5
def POINT_DEDUCTIONS_SOL_DOMAIN_EXPOSED : Nat := 10
def POINT_DEDUCTIONS_HIGH_FREQUENCY_SAME_ADDR : Nat := 8

def ANALYSIS_CONFIG_CLUSTER_THRESHOLD_PERCENTAGE : Nat := 50
def ANALYSIS_CONFIG_MIN_TRANSACTIONS_FOR_PATTERN : Nat := 5

/-! ## CEX detector (detectors/cex.ts) -/

inductive Direction
  | deposit
  | withdrawal
deriving DecidableEq

structure CEXTransaction where
  signature : String
  timestamp : Int
  exchangeName : String
  exchangeAddress : String
  direction : Direction
  amount : Option Rat
deriving DecidableEq

structure CEXDetectionResult where
  detected : Bool
  deposits : List CEXTransaction
  withdrawals : List CEXTransaction
  totalCEXTransactions : Nat
  exchangesInvolved : List String
  riskContribution : Nat
deriving DecidableEq

/-- Lookup of a registry entry by exact address; an empty string models
the falsy `undefined`/`""` guard `if (!address) return null`. -/
def findCEXAddress (address : String) : Option CexInfo :=
  if address = "" then Option.none
  else KNOWN_CEX.find? (fun cex => cex.address = address)

/-- Insertion-ordered `Set.add` for the involved-exchange names. -/
def addExchange (exchanges : List String) (name : String) : List String :=
  if exchanges.contains name then exchanges else exchanges ++ [name]

structure CexScanState where
  deposits : List CEXTransaction
  withdrawals : List CEXTransaction
  exchanges : List String
deriving DecidableEq

/-- One native transfer of the CEX scan: from-side registry match with the
target as destination records a deposit (amount in SOL, lamports / 1e9),
then to-side registry match with the target as source records a withdrawal. -/
def cexNativeStep (wallet : String) (tx : ParsedTransaction)
    (st : CexScanState) (tr : NativeTransfer) : CexScanState :=
  let st1 :=
    match findCEXAddress tr.fromUserAccount with
    | Option.some m =>
      if tr.toUserAccount = wallet then
        { st with
          deposits := st.deposits ++ [⟨tx.signature, tx.timestamp, m.name, m.address,
            Direction.deposit, Option.some ((tr.amount : Rat) / 1000000000)⟩],
          exchanges := addExchange st.exchanges m.name }
      else st
    | Option.none => st
  match findCEXAddress tr.toUserAccount with
  | Option.some m =>
    if tr.fromUserAccount = wallet then
      { st1 with
        withdrawals := st1.withdrawals ++ [⟨tx.signature, tx.timestamp, m.name, m.address,
          Direction.withdrawal, Option.some ((tr.amount : Rat) / 1000000000)⟩],
        exchanges := addExchange st1.exchanges m.name }
    else st1
  | Option.none => st1

/-- One token transfer of the CEX scan (amount taken as-is). -/
def cexTokenStep (wallet : String) (tx : ParsedTransaction)
    (st : CexScanState) (tr : TokenTransfer) : CexScanState :=
  let st1 :=
    match findCEXAddress tr.fromUserAccount with
    | Option.some m =>
      if tr.toUserAccount = wallet then
        { st with
          deposits := st.deposits ++ [⟨tx.signature, tx.timestamp, m.name, m.address,
            Direction.deposit, Option.some tr.tokenAmount⟩],
          exchanges := addExchange st.exchanges m.name }
      else st
    | Option.none => st
  match findCEXAddress tr.toUserAccount with
  | Option.some m =>
    if tr.fromUserAccount = wallet then
      { st1 with
        withdrawals := st1.withdrawals ++ [⟨tx.signature, tx.timestamp, m.name, m.address,
          Direction.withdrawal, Option.some tr.tokenAmount⟩],
        exchanges := addExchange st1.exchanges m.name }
    else st1
  | Option.none => st1

/-- Transfer scan of one transaction: all native transfers, then all
token transfers. -/
def cexTransferScan (wallet : String) (st : CexScanState)
    (tx : ParsedTransaction) : CexScanState :=
  tx.tokenTransfers.foldl (cexTokenStep wallet tx)
    (tx.nativeTransfers.foldl (cexNativeStep wallet tx) st)

/-- Fee-payer check of one transaction: a registry fee payer distinct
from the target adds one deposit record (no amount) unless a deposit
with the same signature is already tracked. -/
def cexFeePayerStep (wallet : String) (tx : ParsedTransaction)
    (st : CexScanState) : CexScanState :=
  match findCEXAddress tx.feePayer with
  | Option.some m =>
    if ¬ tx.feePayer = wallet then
      if st.deposits.any (fun d => d.signature = tx.signature) then st
      else
        { st with
          deposits := st.deposits ++ [⟨tx.signature, tx.timestamp, m.name, m.address,
            Direction.deposit, Option.none⟩],
          exchanges := addExchange st.exchanges m.name }
    else st
  | Option.none => st

/-- Full per-transaction step of the CEX detector. -/
def cexTxStep (wallet : String) (st : CexScanState) (tx : ParsedTransaction) : CexScanState :=
  cexFeePayerStep wallet tx (cexTransferScan wallet st tx)

/-- CEX detector: scan every transaction, then cap the weighted risk at 50.
The surrounding `try`/`catch` of the source cannot fire in this total model. -/
def detectCEXTransactions (transactions : List ParsedTransaction)
    (walletAddress : String) : CEXDetectionResult :=
  let st := transactions.foldl (cexTxStep walletAddress) ⟨[], [], []⟩
  { detected := !st.deposits.isEmpty || !st.withdrawals.isEmpty,
    deposits := st.deposits,
    withdrawals := st.withdrawals,
    totalCEXTransactions := st.deposits.length + st.withdrawals.length,
    exchangesInvolved := st.exchanges,
    riskContribution :=
      min (st.deposits.length * POINT_DEDUCTIONS_CEX_DEPOSIT +
           st.withdrawals.length * POINT_DEDUCTIONS_CEX_WITHDRAWAL) 50 }

/-! ## Claim C5 -/

def scenarioATarget : String := "vines1vzrYbzLMRdu58ou5XTby4qAqVRLmqo36NKPTg"

def scenarioATx : ParsedTransaction :=
  { signature := "sigA", timestamp := 1700000000,
    description := "Transferred 2.5 SOL to Binance",
    feePayer := scenarioATarget,
    accountData := [], tokenTransfers := [],
    nativeTransfers := [⟨scenarioATarget, "5tzFkiKscXHK5ZXCGbXZxdw7gTjjD1mBwuoFbhUvuAi9", 2500000000⟩],
    nftEvent := Option.none }

/-- C5: for every transaction list and target address the CEX detector's
riskContribution equals `min(deposits.length * 15 + withdrawals.length * 10, 50)`;
and on one native transfer of 2,500,000,000 minor units from the target to the
known Binance registry address it returns exactly one withdrawal record with
exchange name "Binance", amount 2.5 SOL, no deposits, and riskContribution 10. -/
theorem claim5_cex_risk_and_scenarioA :
    (∀ (txs : List ParsedTransaction) (wallet : String),
      (detectCEXTransactions txs wallet).riskContribution =
        min ((detectCEXTransactions txs wallet).deposits.length * 15 +
             (detectCEXTransactions txs wallet).withdrawals.length * 10) 50)
    ∧ ((detectCEXTransactions [scenarioATx] scenarioATarget).withdrawals =
        [⟨"sigA", 1700000000, "Binance", "5tzFkiKscXHK5ZXCGbXZxdw7gTjjD1mBwuoFbhUvuAi9",
          Direction.withdrawal, Option.some ((2500000000 : Rat) / 1000000000)⟩]
      ∧ ((2500000000 : Rat) / 1000000000) = 5 / 2
      ∧ (detectCEXTransactions [scenarioATx] scenarioATarget).deposits = []
      ∧ (detectCEXTransactions [scenarioATx] scenarioATarget).riskContribution = 10) := by
  refine ⟨fun txs wallet => rfl, rfl, by norm_num, rfl, rfl⟩

/-! ## Claim C6 -/

def scenarioC6Tx : ParsedTransaction :=
  { signature := "sig6", timestamp := 1700000100,
    description := "Transferred 1 SOL to Binance",
    feePayer := "FWznbcNXWQuHTawe9RxvQ2LdCENssh12dsznf4RiouN5",
    accountData := [], tokenTransfers := [],
    nativeTransfers := [⟨scenarioATarget, "5tzFkiKscXHK5ZXCGbXZxdw7gTjjD1mBwuoFbhUvuAi9", 1000000000⟩],
    nftEvent := Option.none }

/-- C6 counterexample: a transaction captured by the transfer scan as a
withdrawal (target sends 1 SOL to Binance) whose fee payer is the Kraken
registry address still produces an additional feePayer-based deposit
record, because the double-counting guard checks the deposits list only.
This falsifies the claim that a transaction already captured by the
transfer scan (as a deposit or as a withdrawal) never additionally
produces a feePayer-based deposit. -/
theorem claim6_counterexample :
    (detectCEXTransactions [scenarioC6Tx] scenarioATarget).withdrawals.length = 1
    ∧ (detectCEXTransactions [scenarioC6Tx] scenarioATarget).withdrawals.any
        (fun w => w.signature = "sig6") = true
    ∧ (detectCEXTransactions [scenarioC6Tx] scenarioATarget).deposits =
        [⟨"sig6", 1700000100, "Kraken", "FWznbcNXWQuHTawe9RxvQ2LdCENssh12dsznf4RiouN5",
          Direction.deposit, Option.none⟩] := by
  refine ⟨rfl, rfl, rfl⟩

/-- C6 (amended): a transaction whose declared fee payer is a registry
address different from the target adds exactly one feePayer-based deposit
record when no deposit with its signature is already tracked, and adds
none when such a deposit exists; the guard inspects only the deposits
list, so capture as a withdrawal does not suppress the feePayer deposit. -/
theorem claim6_feepayer_dedup_amended :
    ∀ (wallet : String) (st : CexScanState) (tx : ParsedTransaction) (m : CexInfo),
      findCEXAddress tx.feePayer = Option.some m →
      ¬ tx.feePayer = wallet →
      (((cexTransferScan wallet st tx).deposits.any
          (fun d => d.signature = tx.signature) = true →
        (cexTxStep wallet st tx).deposits = (cexTransferScan wallet st tx).deposits)
      ∧ ((cexTransferScan wallet st tx).deposits.any
          (fun d => d.signature = tx.signature) = false →
        (cexTxStep wallet st tx).deposits = (cexTransferScan wallet st tx).deposits ++
          [⟨tx.signature, tx.timestamp, m.name, m.address, Direction.deposit, Option.none⟩])) := by
  intro wallet st tx m hm hne
  unfold cexTxStep cexFeePayerStep
  rw [hm]
  simp only [hne, if_true, if_false, ite_not]
  constructor
  · intro hcap
    simp [hcap]
  · intro hcap
    simp [hcap]

theorem claim6_feepayer_dedup_witness :
    (cexTxStep scenarioATarget ⟨[], [], []⟩ scenarioC6Tx).deposits =
      (cexTransferScan scenarioATarget ⟨[], [], []⟩ scenarioC6Tx).deposits ++
        [⟨"sig6", 1700000100, "Kraken", "FWznbcNXWQuHTawe9RxvQ2LdCENssh12dsznf4RiouN5",
          Direction.deposit, Option.none⟩] :=
  (claim6_feepayer_dedup_amended scenarioATarget ⟨[], [], []⟩ scenarioC6Tx
    ⟨"FWznbcNXWQuHTawe9RxvQ2LdCENssh12dsznf4RiouN5", "Kraken"⟩ rfl
    (by decide)).2 rfl

/-! ## Clustering detector (detectors/clustering.ts) -/

structure AddressFrequency where
  address : String
  count : Nat
  percentage : Rat
deriving DecidableEq

inductive ClusterPattern
  | none
  | single_counterparty
  | small_cluster
  | wash_trading
  | funnel
deriving DecidableEq

structure ClusteringResult where
  detected : Bool
  clusteringPercentage : Rat
  topAddresses : List AddressFrequency
  dominantAddress : Option String
  totalUniqueAddresses : Nat
  totalTransactions : Nat
  riskContribution : Nat
  pattern : ClusterPattern
deriving DecidableEq

/-- Insertion-ordered counter bump, modelling
`map.set(k, (map.get(k) || 0) + 1)` on a JavaScript `Map`. -/
def bumpCount : List (String × Nat) → String → List (String × Nat)
  | [], a => [(a, 1)]
  | (b, n) :: rest, a => if b = a then (b, n + 1) :: rest else (b, n) :: bumpCount rest a

/-- One transfer of the interaction count: the non-target side is counted
when it is truthy (non-empty) and differs from the target. -/
def interactionStep (wallet : String) (st : List (String × Nat) × Nat)
    (fromA toA : String) : List (String × Nat) × Nat :=
  let otherAddress := if fromA = wallet then toA else fromA
  if ¬ otherAddress = "" ∧ ¬ otherAddress = wallet then
    (bumpCount st.1 otherAddress, st.2 + 1)
  else st

/-- Per-transaction interaction counting: native transfers, then token
transfers. -/
def clusterTxStep (wallet : String) (st : List (String × Nat) × Nat)
    (tx : ParsedTransaction) : List (String × Nat) × Nat :=
  tx.tokenTransfers.foldl
    (fun s tr => interactionStep wallet s tr.fromUserAccount tr.toUserAccount)
    (tx.nativeTransfers.foldl
      (fun s tr => interactionStep wallet s tr.fromUserAccount tr.toUserAccount) st)

/-- Counterparty interaction counts plus the running total. -/
def clusterCounts (transactions : List ParsedTransaction) (wallet : String) :
    List (String × Nat) × Nat :=
  transactions.foldl (clusterTxStep wallet) ([], 0)

/-- Total counterparty interactions seen by the clustering detector. -/
def clusterTotalInteractions (transactions : List ParsedTransaction)
    (wallet : String) : Nat :=
  (clusterCounts transactions wallet).2

/-- Descending stable sort by count, `sort((a, b) => b[1] - a[1])`. -/
def sortCounts (counts : List (String × Nat)) : List (String × Nat) :=
  stableSort (fun a b => decide (b.2 ≤ a.2)) counts

/-- Map sorted counts to address-frequency entries with share of the
total counterparty interactions. -/
def toFrequencies (sorted : List (String × Nat)) (total : Nat) : List AddressFrequency :=
  sorted.map (fun p => ⟨p.1, p.2, (p.2 : Rat) / (total : Rat) * 100⟩)

/-- Percentage sum accumulator, `reduce((sum, a) => sum + a.percentage, 0)`. -/
def sumPercentages (l : List AddressFrequency) : Rat :=
  l.foldl (fun s a => s + a.percentage) 0

/-- Pattern classifier, first match wins: single counterparty (top share
at least 50), small cluster (3 or more counterparties, top-3 shares sum
to at least 80), funnel (10 or more counterparties, top-5 shares sum to
at least 70), else no pattern.  The source also passes the unused total
interaction count. -/
def detectPattern (sortedAddresses : List AddressFrequency) (_total : Nat) : ClusterPattern :=
  match sortedAddresses with
  | [] => ClusterPattern.none
  | fa :: _ =>
    if 50 ≤ fa.percentage then ClusterPattern.single_counterparty
    else if 3 ≤ sortedAddresses.length ∧ 80 ≤ sumPercentages (sortedAddresses.take 3) then
      ClusterPattern.small_cluster
    else if 10 ≤ sortedAddresses.length ∧ 70 ≤ sumPercentages (sortedAddresses.take 5) then
      ClusterPattern.funnel
    else ClusterPattern.none

/-- Risk contribution by pattern when clustering is detected.  The source
computes `floor(20 * 0.7)` and `floor(20 * 0.5)` with floats, which equal
the integer values 14 and 10 used here. -/
def clusterRisk (clusteringDetected : Bool) (pattern : ClusterPattern) : Nat :=
  if clusteringDetected then
    match pattern with
    | ClusterPattern.single_counterparty => POINT_DEDUCTIONS_CLUSTER_DETECTED
    | ClusterPattern.wash_trading => POINT_DEDUCTIONS_CLUSTER_DETECTED + 10
    | ClusterPattern.small_cluster => POINT_DEDUCTIONS_CLUSTER_DETECTED * 7 / 10
    | ClusterPattern.funnel => POINT_DEDUCTIONS_CLUSTER_DETECTED * 5 / 10
    | ClusterPattern.none => POINT_DEDUCTIONS_HIGH_FREQUENCY_SAME_ADDR
  else 0

/-- Sorted address-frequency entries (`sortedAddresses` of the source). -/
def sortedFreqs (transactions : List ParsedTransaction) (wallet : String) :
    List AddressFrequency :=
  toFrequencies (sortCounts (clusterCounts transactions wallet).1)
    (clusterCounts transactions wallet).2

/-- Share of the most frequent counterparty (`highestPercentage`), 0 when
there is none. -/
def highestPct (transactions : List ParsedTransaction) (wallet : String) : Rat :=
  ((((sortedFreqs transactions wallet).take 5).head?).map (fun a => a.percentage)).getD 0

/-- Detected clustering pattern of a transaction set. -/
def clusterPatternOf (transactions : List ParsedTransaction) (wallet : String) :
    ClusterPattern :=
  detectPattern (sortedFreqs transactions wallet) (clusterCounts transactions wallet).2

/-- Detection flag: top share at or above the 50-percent threshold, or a
named pattern. -/
def clusterDetectedFlag (transactions : List ParsedTransaction) (wallet : String) : Bool :=
  decide ((ANALYSIS_CONFIG_CLUSTER_THRESHOLD_PERCENTAGE : Rat) ≤ highestPct transactions wallet)
  || decide (¬ clusterPatternOf transactions wallet = ClusterPattern.none)

/-- Clustering detector.  Below the minimum-interaction threshold the
documented zero/none default is returned; otherwise counterparties are
sorted descending by count, the top five are reported and the pattern
classifier plus the 50-percent concentration rule decide detection. -/
def detectClustering (transactions : List ParsedTransaction)
    (walletAddress : String) : ClusteringResult :=
  if (clusterCounts transactions walletAddress).2 <
      ANALYSIS_CONFIG_MIN_TRANSACTIONS_FOR_PATTERN then
    { detected := false, clusteringPercentage := 0, topAddresses := [],
      dominantAddress := Option.none,
      totalUniqueAddresses := (clusterCounts transactions walletAddress).1.length,
      totalTransactions := transactions.length, riskContribution := 0,
      pattern := ClusterPattern.none }
  else
    { detected := clusterDetectedFlag transactions walletAddress,
      clusteringPercentage := highestPct transactions walletAddress,
      topAddresses := (sortedFreqs transactions walletAddress).take 5,
      dominantAddress :=
        (((sortedFreqs transactions walletAddress).take 5).head?).map (fun a => a.address),
      totalUniqueAddresses := (clusterCounts transactions walletAddress).1.length,
      totalTransactions := transactions.length,
      riskContribution := clusterRisk (clusterDetectedFlag transactions walletAddress)
        (clusterPatternOf transactions walletAddress),
      pattern := clusterPatternOf transactions walletAddress }

/-! ## Claim C7 -/

/-- C7: whenever the total counterparty interactions number fewer than 5,
the clustering detector returns pattern none, detected false and
riskContribution 0, regardless of the distribution. -/
theorem claim7_min_interactions :
    ∀ (txs : List ParsedTransaction) (wallet : String),
      clusterTotalInteractions txs wallet < 5 →
      (detectClustering txs wallet).pattern = ClusterPattern.none
      ∧ (detectClustering txs wallet).detected = false
      ∧ (detectClustering txs wallet).riskContribution = 0 := by
  intro txs wallet h
  have h5 : (clusterCounts txs wallet).2 < ANALYSIS_CONFIG_MIN_TRANSACTIONS_FOR_PATTERN := h
  unfold detectClustering
  rw [if_pos h5]
  exact ⟨rfl, rfl, rfl⟩

theorem claim7_min_interactions_witness :
    clusterTotalInteractions [] "w" < 5
    ∧ ((detectClustering [] "w").pattern = ClusterPattern.none
      ∧ (detectClustering [] "w").detected = false
      ∧ (detectClustering [] "w").riskContribution = 0) :=
  ⟨by decide, claim7_min_interactions [] "w" (by decide)⟩

/-! ## Claim C10 -/

theorem detectPattern_ne_wash (l : List AddressFrequency) (t : Nat) :
    ¬ detectPattern l t = ClusterPattern.wash_trading := by
  cases l with
  | nil => simp [detectPattern]
  | cons fa rest =>
    simp only [detectPattern]
    split_ifs <;> simp

theorem detectPattern_of_high_share (fa : AddressFrequency)
    (rest : List AddressFrequency) (t : Nat) (h : 50 ≤ fa.percentage) :
    detectPattern (fa :: rest) t = ClusterPattern.single_counterparty := by
  unfold detectPattern
  simp only [h, if_true]

/-- C10: the clustering risk contribution always lies in {0, 10, 14, 20}:
the pattern classifier never returns wash_trading, and a top share of at
least 50 percent forces the single_counterparty pattern, so the 30-point
and 8-point branches are unreachable. -/
theorem claim10_cluster_risk_range :
    (∀ (txs : List ParsedTransaction) (wallet : String),
      (detectClustering txs wallet).riskContribution = 0
      ∨ (detectClustering txs wallet).riskContribution = 10
      ∨ (detectClustering txs wallet).riskContribution = 14
      ∨ (detectClustering txs wallet).riskContribution = 20)
    ∧ (∀ (l : List AddressFrequency) (t : Nat),
        ¬ detectPattern l t = ClusterPattern.wash_trading)
    ∧ (∀ (fa : AddressFrequency) (rest : List AddressFrequency) (t : Nat),
        50 ≤ fa.percentage →
        detectPattern (fa :: rest) t = ClusterPattern.single_counterparty) := by
  refine ⟨?_, detectPattern_ne_wash, detectPattern_of_high_share⟩
  intro txs wallet
  unfold detectClustering
  split_ifs with hlt
  · exact Or.inl rfl
  · show clusterRisk (clusterDetectedFlag txs wallet) (clusterPatternOf txs wallet) = 0
      ∨ clusterRisk (clusterDetectedFlag txs wallet) (clusterPatternOf txs wallet) = 10
      ∨ clusterRisk (clusterDetectedFlag txs wallet) (clusterPatternOf txs wallet) = 14
      ∨ clusterRisk (clusterDetectedFlag txs wallet) (clusterPatternOf txs wallet) = 20
    rcases hs : sortedFreqs txs wallet with _ | ⟨fa, rest⟩
    · have hp : clusterPatternOf txs wallet = ClusterPattern.none := by
        unfold clusterPatternOf
        rw [hs]
        rfl
      have hh : highestPct txs wallet = 0 := by
        unfold highestPct
        rw [hs]
        rfl
      have hflag : clusterDetectedFlag txs wallet = false := by
        unfold clusterDetectedFlag
        rw [hp, hh]
        norm_num [ANALYSIS_CONFIG_CLUSTER_THRESHOLD_PERCENTAGE]
      rw [hflag]
      exact Or.inl (by simp [clusterRisk])
    · have hh : highestPct txs wallet = fa.percentage := by
        unfold highestPct
        rw [hs]
        rfl
      by_cases hfa : 50 ≤ fa.percentage
      · have hp : clusterPatternOf txs wallet = ClusterPattern.single_counterparty := by
          unfold clusterPatternOf
          rw [hs]
          exact detectPattern_of_high_share fa rest _ hfa
        have hflag : clusterDetectedFlag txs wallet = true := by
          unfold clusterDetectedFlag
          rw [hp, hh]
          have : (ANALYSIS_CONFIG_CLUSTER_THRESHOLD_PERCENTAGE : Rat) ≤ fa.percentage := by
            unfold ANALYSIS_CONFIG_CLUSTER_THRESHOLD_PERCENTAGE
            push_cast
            exact hfa
          simp [this]
        rw [hflag, hp]
        exact Or.inr (Or.inr (Or.inr (by
          simp [clusterRisk, POINT_DEDUCTIONS_CLUSTER_DETECTED])))
      · have hthr : ¬ (ANALYSIS_CONFIG_CLUSTER_THRESHOLD_PERCENTAGE : Rat) ≤
            highestPct txs wallet := by
          rw [hh]
          unfold ANALYSIS_CONFIG_CLUSTER_THRESHOLD_PERCENTAGE
          push_cast
          exact hfa
        rcases hpat : clusterPatternOf txs wallet with _ | _ | _ | _ | _
        · have hflag : clusterDetectedFlag txs wallet = false := by
            unfold clusterDetectedFlag
            rw [hpat]
            simp [hthr]
          rw [hflag]
          exact Or.inl (by simp [clusterRisk])
        · exact Or.inr (Or.inr (Or.inr (by
            have hflag : clusterDetectedFlag txs wallet = true := by
              unfold clusterDetectedFlag
              rw [hpat]
              simp
            rw [hflag]
            simp [clusterRisk, POINT_DEDUCTIONS_CLUSTER_DETECTED])))
        · exact Or.inr (Or.inr (Or.inl (by
            have hflag : clusterDetectedFlag txs wallet = true := by
              unfold clusterDetectedFlag
              rw [hpat]
              simp
            rw [hflag]
            simp [clusterRisk, POINT_DEDUCTIONS_CLUSTER_DETECTED])))
        · exact absurd (by
            unfold clusterPatternOf at hpat
            exact hpat) (detectPattern_ne_wash (sortedFreqs txs wallet) _)
        · exact Or.inr (Or.inl (by
            have hflag : clusterDetectedFlag txs wallet = true := by
              unfold clusterDetectedFlag
              rw [hpat]
              simp
            rw [hflag]
            simp [clusterRisk, POINT_DEDUCTIONS_CLUSTER_DETECTED]))

theorem claim10_cluster_risk_range_witness :
    detectPattern ([⟨"a", 6, 60⟩] : List AddressFrequency) 10 =
      ClusterPattern.single_counterparty :=
  claim10_cluster_risk_range.2.2 ⟨"a", 6, 60⟩ [] 10 (by norm_num)

/-! ## Wash trading detector (detectors/clustering.ts, detectWashTrading) -/

structure Timeline where
  sent : List Int
  received : List Int
deriving DecidableEq

def emptyTimeline : Timeline := ⟨[], []⟩

/-- One push into the per-counterparty timeline map: a native transfer
sent by the target to a truthy counterparty records the transaction
timestamp as "sent", a native transfer received from a truthy
counterparty records it as "received" (a single transfer can do both). -/
structure WashEvent where
  addr : String
  t : Int
  isSent : Bool
deriving DecidableEq

/-- Flattened sequence of timeline pushes performed by the scan loop, in
loop order. -/
def washEvents (wallet : String) (txs : List ParsedTransaction) : List WashEvent :=
  txs.flatMap (fun tx => tx.nativeTransfers.flatMap (fun tr =>
    (if tr.fromUserAccount = wallet ∧ ¬ tr.toUserAccount = "" then
      [⟨tr.toUserAccount, tx.timestamp, true⟩] else [])
    ++ (if tr.toUserAccount = wallet ∧ ¬ tr.fromUserAccount = "" then
      [⟨tr.fromUserAccount, tx.timestamp, false⟩] else [])))

/-- Insertion-ordered map update (JavaScript `Map.set` after
`get(k) || default`): the entry is updated in place, or appended. -/
def tlUpdate : List (String × Timeline) → String → (Timeline → Timeline) →
    List (String × Timeline)
  | [], k, f => [(k, f emptyTimeline)]
  | (b, tl) :: rest, k, f =>
    if b = k then (b, f tl) :: rest else (b, tl) :: tlUpdate rest k f

def applyWashEvent (m : List (String × Timeline)) (e : WashEvent) :
    List (String × Timeline) :=
  tlUpdate m e.addr (fun tl =>
    if e.isSent then { tl with sent := tl.sent ++ [e.t] }
    else { tl with received := tl.received ++ [e.t] })

/-- The `addressTimelines` map after the scan loop. -/
def buildTimelines (wallet : String) (txs : List ParsedTransaction) :
    List (String × Timeline) :=
  (washEvents wallet txs).foldl applyWashEvent []

structure TaggedTime where
  t : Int
  isSent : Bool
deriving DecidableEq

/-- Chronologically sorted merge of the tagged sent/received timestamps
(`[...sent, ...received].sort((a, b) => a.t - b.t)`, stable). -/
def mergedTimeline (tl : Timeline) : List TaggedTime :=
  stableSort (fun a b => decide (a.t ≤ b.t))
    (tl.sent.map (fun t => ⟨t, true⟩) ++ tl.received.map (fun t => ⟨t, false⟩))

/-- Count of adjacent pairs of differing type in the merged sequence. -/
def countAlternations : List TaggedTime → Nat
  | [] => 0
  | [_] => 0
  | a :: b :: rest =>
    (if ¬ a.isSent = b.isSent then 1 else 0) + countAlternations (b :: rest)

structure WashTradePair where
  address : String
  sendCount : Nat
  receiveCount : Nat
  alternations : Nat
deriving DecidableEq

/-- Per-counterparty flagging rule: at least 2 sent and 2 received
timestamps and at least 3 alternations in the merged sequence. -/
def washPairOf (e : String × Timeline) : Option WashTradePair :=
  if 2 ≤ e.2.sent.length ∧ 2 ≤ e.2.received.length then
    if 3 ≤ countAlternations (mergedTimeline e.2) then
      Option.some ⟨e.1, e.2.sent.length, e.2.received.length,
        countAlternations (mergedTimeline e.2)⟩
    else Option.none
  else Option.none

structure WashTradingResult where
  detected : Bool
  pairs : List WashTradePair
deriving DecidableEq

/-- Wash trading detector: build the timeline map, flag qualifying
counterparties in map order, detect when any pair is flagged. -/
def detectWashTrading (transactions : List ParsedTransaction)
    (walletAddress : String) : WashTradingResult :=
  let pairs := (buildTimelines walletAddress transactions).filterMap washPairOf
  ⟨!pairs.isEmpty, pairs⟩

/-! ### Declarative characterization used by claim C8 -/

/-- Timestamps of native transfers where the target sent to counterparty `a`. -/
def washSentTimestamps (txs : List ParsedTransaction) (wallet a : String) : List Int :=
  ((washEvents wallet txs).filter (fun e => decide (e.addr = a) && e.isSent)).map
    (fun e => e.t)

/-- Timestamps of native transfers where the target received from
counterparty `a`. -/
def washReceivedTimestamps (txs : List ParsedTransaction) (wallet a : String) : List Int :=
  ((washEvents wallet txs).filter (fun e => decide (e.addr = a) && !e.isSent)).map
    (fun e => e.t)

/-- Merged chronologically sorted tagged sequence for counterparty `a`. -/
def washMergedOf (txs : List ParsedTransaction) (wallet a : String) : List TaggedTime :=
  mergedTimeline ⟨washSentTimestamps txs wallet a, washReceivedTimestamps txs wallet a⟩

/-! ### Map lemmas -/

def lookupTL : List (String × Timeline) → String → Option Timeline
  | [], _ => Option.none
  | (b, tl) :: rest, a => if b = a then Option.some tl else lookupTL rest a

def entryTL (m : List (String × Timeline)) (a : String) : Timeline :=
  (lookupTL m a).getD emptyTimeline

theorem lookupTL_tlUpdate (m : List (String × Timeline)) (k : String)
    (f : Timeline → Timeline) (a : String) :
    lookupTL (tlUpdate m k f) a =
      if k = a then Option.some (f (entryTL m k)) else lookupTL m a := by
  induction m with
  | nil =>
    by_cases hka : k = a <;> simp [tlUpdate, lookupTL, entryTL, hka]
  | cons hd rest ih =>
    obtain ⟨b, tl⟩ := hd
    by_cases hbk : b = k
    · subst hbk
      by_cases hba : b = a <;>
        simp [tlUpdate, lookupTL, entryTL, hba]
    · by_cases hba : b = a
      · have hka : ¬ k = a := fun hk => hbk (hba.trans hk.symm)
        have hak : ¬ a = k := fun hk => hka hk.symm
        simp [tlUpdate, lookupTL, entryTL, hbk, hba, hka, hak]
      · simp [tlUpdate, lookupTL, entryTL, hbk, hba, ih]

theorem entryTL_foldl (evs : List WashEvent) (m : List (String × Timeline)) (a : String) :
    entryTL (evs.foldl applyWashEvent m) a =
      ⟨(entryTL m a).sent ++
         ((evs.filter (fun e => decide (e.addr = a) && e.isSent)).map (fun e => e.t)),
       (entryTL m a).received ++
         ((evs.filter (fun e => decide (e.addr = a) && !e.isSent)).map (fun e => e.t))⟩ := by
  induction evs generalizing m with
  | nil =>
    simp only [List.foldl_nil, List.filter_nil, List.map_nil, List.append_nil]
  | cons e evs ih =>
    have hstep : entryTL (applyWashEvent m e) a =
        if e.addr = a then
          (if e.isSent then
            { entryTL m a with sent := (entryTL m a).sent ++ [e.t] }
          else { entryTL m a with received := (entryTL m a).received ++ [e.t] })
        else entryTL m a := by
      unfold applyWashEvent entryTL
      rw [lookupTL_tlUpdate]
      by_cases hea : e.addr = a
      · simp [hea, entryTL]
      · simp [hea, entryTL]
    rw [List.foldl_cons, ih, hstep]
    by_cases hea : e.addr = a
    · cases hsent : e.isSent <;>
        simp [hea, hsent, List.filter_cons, List.append_assoc, List.singleton_append]
    · simp [hea, List.filter_cons]

def keysOf (m : List (String × Timeline)) : List String := m.map Prod.fst

theorem mem_keysOf_tlUpdate (m : List (String × Timeline)) (k : String)
    (f : Timeline → Timeline) (x : String) :
    x ∈ keysOf (tlUpdate m k f) ↔ x ∈ keysOf m ∨ x = k := by
  induction m with
  | nil => simp [tlUpdate, keysOf]
  | cons hd rest ih =>
    obtain ⟨b, tl⟩ := hd
    by_cases hbk : b = k
    · subst hbk
      have heq : tlUpdate ((b, tl) :: rest) b f = (b, f tl) :: rest := by
        simp [tlUpdate]
      rw [heq]
      simp only [keysOf, List.map_cons, List.mem_cons]
      tauto
    · have heq : tlUpdate ((b, tl) :: rest) k f = (b, tl) :: tlUpdate rest k f := by
        simp [tlUpdate, hbk]
      rw [heq]
      simp only [keysOf, List.map_cons, List.mem_cons] at ih ⊢
      rw [ih]
      tauto

theorem nodup_keysOf_tlUpdate (m : List (String × Timeline)) (k : String)
    (f : Timeline → Timeline) (h : (keysOf m).Nodup) : (keysOf (tlUpdate m k f)).Nodup := by
  induction m with
  | nil => simp [tlUpdate, keysOf]
  | cons hd rest ih =>
    obtain ⟨b, tl⟩ := hd
    simp only [keysOf, List.map_cons, List.nodup_cons] at h
    by_cases hbk : b = k
    · subst hbk
      have heq : tlUpdate ((b, tl) :: rest) b f = (b, f tl) :: rest := by
        simp [tlUpdate]
      rw [heq]
      simp only [keysOf, List.map_cons, List.nodup_cons]
      exact ⟨h.1, h.2⟩
    · have heq : tlUpdate ((b, tl) :: rest) k f = (b, tl) :: tlUpdate rest k f := by
        simp [tlUpdate, hbk]
      rw [heq]
      simp only [keysOf, List.map_cons, List.nodup_cons]
      refine ⟨?_, ih h.2⟩
      intro hmem
      rcases (mem_keysOf_tlUpdate rest k f b).mp hmem with hb | hb
      · exact h.1 hb
      · exact hbk hb

theorem nodup_keysOf_foldl (evs : List WashEvent) (m : List (String × Timeline))
    (h : (keysOf m).Nodup) : (keysOf (evs.foldl applyWashEvent m)).Nodup := by
  induction evs generalizing m with
  | nil => exact h
  | cons e evs ih =>
    rw [List.foldl_cons]
    exact ih _ (nodup_keysOf_tlUpdate m e.addr _ h)

theorem mem_iff_lookupTL (m : List (String × Timeline)) (h : (keysOf m).Nodup)
    (a : String) (tl : Timeline) : (a, tl) ∈ m ↔ lookupTL m a = Option.some tl := by
  induction m with
  | nil => simp [lookupTL]
  | cons hd rest ih =>
    obtain ⟨b, tlb⟩ := hd
    simp only [keysOf, List.map_cons, List.nodup_cons] at h
    by_cases hba : b = a
    · subst hba
      have hlook : lookupTL ((b, tlb) :: rest) b = Option.some tlb := by
        simp [lookupTL]
      rw [hlook]
      constructor
      · intro hmem
        rcases List.mem_cons.mp hmem with heq | hmem2
        · have htl : tl = tlb := congrArg Prod.snd heq
          rw [htl]
        · exact absurd (List.mem_map_of_mem Prod.fst hmem2) h.1
      · intro hsome
        have htl : tlb = tl := Option.some.inj hsome
        rw [← htl]
        exact List.mem_cons_self _ _
    · have hlook : lookupTL ((b, tlb) :: rest) a = lookupTL rest a := by
        simp [lookupTL, hba]
      rw [hlook]
      constructor
      · intro hmem
        rcases List.mem_cons.mp hmem with heq | hmem2
        · exact absurd (congrArg Prod.fst heq).symm hba
        · exact (ih h.2).mp hmem2
      · intro hsome
        exact List.mem_cons_of_mem _ ((ih h.2).mpr hsome)

/-! ## Claim C8 -/

theorem washPairOf_eq_some_iff (e : String × Timeline) (p : WashTradePair) :
    washPairOf e = Option.some p ↔
      ((2 ≤ e.2.sent.length ∧ 2 ≤ e.2.received.length ∧
        3 ≤ countAlternations (mergedTimeline e.2)) ∧
       p = ⟨e.1, e.2.sent.length, e.2.received.length,
         countAlternations (mergedTimeline e.2)⟩) := by
  unfold washPairOf
  split_ifs with h1 h2
  · constructor
    · intro hp
      exact ⟨⟨h1.1, h1.2, h2⟩, (Option.some.inj hp).symm⟩
    · intro hp
      rw [hp.2]
  · constructor
    · intro hcontra
      exact absurd hcontra (by simp)
    · rintro ⟨hc, -⟩
      exact absurd hc.2.2 h2
  · constructor
    · intro hcontra
      exact absurd hcontra (by simp)
    · rintro ⟨hc, -⟩
      exact absurd ⟨hc.1, hc.2.1⟩ h1

theorem entryTL_buildTimelines (txs : List ParsedTransaction) (wallet a : String) :
    entryTL (buildTimelines wallet txs) a =
      ⟨washSentTimestamps txs wallet a, washReceivedTimestamps txs wallet a⟩ := by
  unfold buildTimelines washSentTimestamps washReceivedTimestamps
  rw [entryTL_foldl]
  simp [entryTL, lookupTL, emptyTimeline]

theorem isEmpty_iff_exists_flagged (l : List WashTradePair) :
    (!l.isEmpty) = true ↔ ∃ b, l.any (fun p => p.address = b) = true := by
  cases l with
  | nil => simp
  | cons p rest =>
    simp only [List.isEmpty_cons, Bool.not_false, true_iff]
    exact ⟨p.address, by simp⟩

/-- C8: the wash-trading detector flags a counterparty exactly when,
restricted to native transfers, the target has at least 2 sent and at
least 2 received timestamps with it and the merged chronologically
sorted tagged sequence has at least 3 alternations; and the overall
detected flag holds exactly when some counterparty is flagged. -/
theorem claim8_wash_trading_iff :
    (∀ (txs : List ParsedTransaction) (wallet a : String),
      ((detectWashTrading txs wallet).pairs.any (fun p => p.address = a)) = true ↔
        (2 ≤ (washSentTimestamps txs wallet a).length ∧
         2 ≤ (washReceivedTimestamps txs wallet a).length ∧
         3 ≤ countAlternations (washMergedOf txs wallet a)))
    ∧ (∀ (txs : List ParsedTransaction) (wallet : String),
        (detectWashTrading txs wallet).detected = true ↔
          ∃ b, ((detectWashTrading txs wallet).pairs.any (fun p => p.address = b)) = true) := by
  constructor
  · intro txs wallet a
    have hnodup : (keysOf (buildTimelines wallet txs)).Nodup :=
      nodup_keysOf_foldl _ [] (by simp [keysOf])
    have hentry := entryTL_buildTimelines txs wallet a
    have hpairs : (detectWashTrading txs wallet).pairs =
        (buildTimelines wallet txs).filterMap washPairOf := rfl
    constructor
    · intro hany
      rw [hpairs, List.any_eq_true] at hany
      obtain ⟨p, hp, hpa⟩ := hany
      rw [decide_eq_true_eq] at hpa
      rw [List.mem_filterMap] at hp
      obtain ⟨e, hem, hpe⟩ := hp
      rw [washPairOf_eq_some_iff] at hpe
      obtain ⟨hcond, hpeq⟩ := hpe
      have hea : e.1 = a := by
        rw [hpeq] at hpa
        exact hpa
      have hmem : (a, e.2) ∈ buildTimelines wallet txs := by
        rw [← hea]
        exact hem
      have hlook := (mem_iff_lookupTL _ hnodup a e.2).mp hmem
      have he2 : entryTL (buildTimelines wallet txs) a = e.2 := by
        unfold entryTL
        rw [hlook]
        rfl
      rw [he2] at hentry
      rw [hentry] at hcond
      exact hcond
    · intro hcond
      have hcondT : 2 ≤ (⟨washSentTimestamps txs wallet a,
            washReceivedTimestamps txs wallet a⟩ : Timeline).sent.length ∧
          2 ≤ (⟨washSentTimestamps txs wallet a,
            washReceivedTimestamps txs wallet a⟩ : Timeline).received.length ∧
          3 ≤ countAlternations (mergedTimeline ⟨washSentTimestamps txs wallet a,
            washReceivedTimestamps txs wallet a⟩) := hcond
      rcases hl : lookupTL (buildTimelines wallet txs) a with _ | tl2
      · exfalso
        have hTe : (⟨washSentTimestamps txs wallet a,
            washReceivedTimestamps txs wallet a⟩ : Timeline) = emptyTimeline := by
          rw [← hentry]
          unfold entryTL
          rw [hl]
          rfl
        have hsent0 : washSentTimestamps txs wallet a = [] :=
          congrArg Timeline.sent hTe
        rw [hsent0] at hcond
        simp at hcond
      · have htl2 : tl2 = ⟨washSentTimestamps txs wallet a,
            washReceivedTimestamps txs wallet a⟩ := by
          rw [← hentry]
          unfold entryTL
          rw [hl]
          rfl
        have hmem : (a, tl2) ∈ buildTimelines wallet txs :=
          (mem_iff_lookupTL _ hnodup a tl2).mpr hl
        rw [hpairs, List.any_eq_true]
        refine ⟨⟨a, tl2.sent.length, tl2.received.length,
          countAlternations (mergedTimeline tl2)⟩, ?_, by simp⟩
        rw [List.mem_filterMap]
        refine ⟨(a, tl2), hmem, ?_⟩
        rw [washPairOf_eq_some_iff]
        refine ⟨?_, rfl⟩
        rw [htl2]
        exact hcondT
  · intro txs wallet
    exact isEmpty_iff_exists_flagged ((buildTimelines wallet txs).filterMap washPairOf)

/-! ## Identity-asset detector (detectors/assets.ts)

The `name` field of detected assets (display-only extraction via
`extractNFTName`) is omitted; every claim concerns mints, types and
counts only. -/

inductive AssetType
  | nft
  | poap
  | badge
  | domain
deriving DecidableEq

structure NFTAsset where
  mint : String
  type : AssetType
  receivedTimestamp : Int
deriving DecidableEq

inductive ExposureLevel
  | none
  | low
  | medium
  | high
deriving DecidableEq

structure AssetsDetectionResult where
  detected : Bool
  nftsDetected : List NFTAsset
  solDomainsDetected : List String
  poapsDetected : List NFTAsset
  identityExposureLevel : ExposureLevel
  riskContribution : Nat
deriving DecidableEq

def POAP_INDICATORS : List String :=
  ["poap", "proof of attendance", "event", "badge", "attendance",
   "participated", "hackathon", "conference", "meetup"]

def SNS_PROGRAM_ID : String := "namesLPneVptA9Z5rqUDD9tMTWEJwofgaYwp8cawRkX"
def BONFIDA_PROGRAM_ID : String := "jCebN34bUfdeUYJT13J1yG16XWQpt5PDx6Mse9GUqhR"

/-- Keyword test on the lower-cased description. -/
def isPOAPorBadge (description : String) : Bool :=
  POAP_INDICATORS.any (fun indicator => strContains (strLower description) indicator)

/-- Domain-transaction test: description mentions ".sol", "domain" or
"name service" (case-insensitively), or an account is one of the two
name-service program ids. -/
def isSOLDomainTransaction (tx : ParsedTransaction) : Bool :=
  strContains (strLower tx.description) ".sol"
  || strContains (strLower tx.description) "domain"
  || strContains (strLower tx.description) "name service"
  || tx.accountData.any (fun account =>
      decide (account.account = SNS_PROGRAM_ID) || decide (account.account = BONFIDA_PROGRAM_ID))

def isDomainChar (c : Char) : Bool :=
  (('a' ≤ c ∧ c ≤ 'z') ∨ ('A' ≤ c ∧ c ≤ 'Z') ∨ ('0' ≤ c ∧ c ≤ '9')
    ∨ c = '_' ∨ c = '-')

/-- Leftmost match of the pattern `[a-zA-Z0-9_-]+\\.sol`: at each start
position a non-empty maximal run of word characters must be followed
immediately by ".sol" (since '.' is outside the character class, only
the maximal run can precede the literal). -/
def extractSolMatch : List Char → Option String
  | [] => Option.none
  | c :: rest =>
    let run := (c :: rest).takeWhile isDomainChar
    let after := (c :: rest).dropWhile isDomainChar
    if ¬ run.isEmpty ∧ ".sol".data.isPrefixOf after then
      Option.some (String.mk (run ++ ".sol".data))
    else extractSolMatch rest

/-- Domain-name extraction from the raw (not lower-cased) description. -/
def extractDomainName (tx : ParsedTransaction) : Option String :=
  extractSolMatch tx.description.data

structure AssetsScanState where
  nftsDetected : List NFTAsset
  solDomainsDetected : List String
  poapsDetected : List NFTAsset
deriving DecidableEq

/-- NFT-event section of one transaction: when the target is the buyer
or the description contains "received", every listed mint is pushed as a
POAP or a generic NFT with no deduplication. -/
def assetEventStep (wallet : String) (tx : ParsedTransaction)
    (st : AssetsScanState) : AssetsScanState :=
  match tx.nftEvent with
  | Option.none => st
  | Option.some ev =>
    if ev.buyer = Option.some wallet || strContains (strLower tx.description) "received" then
      (ev.nfts.getD []).foldl (fun s nft =>
        if isPOAPorBadge tx.description then
          { s with poapsDetected :=
              s.poapsDetected ++ [⟨nft.mint, AssetType.poap, tx.timestamp⟩] }
        else
          { s with nftsDetected :=
              s.nftsDetected ++ [⟨nft.mint, AssetType.nft, tx.timestamp⟩] }) st
    else st

/-- Domain section of one transaction: the extracted domain is appended
when not already recorded. -/
def assetDomainStep (tx : ParsedTransaction) (st : AssetsScanState) : AssetsScanState :=
  if isSOLDomainTransaction tx then
    match extractDomainName tx with
    | Option.some domainName =>
      if st.solDomainsDetected.contains domainName then st
      else { st with solDomainsDetected := st.solDomainsDetected ++ [domainName] }
    | Option.none => st
  else st

/-- One token transfer of the asset scan: a non-fungible transfer of
amount 1 to the target is classified like the event pass, deduplicated by
mint against the assets already found. -/
def assetTransferOne (wallet : String) (tx : ParsedTransaction)
    (s : AssetsScanState) (tr : TokenTransfer) : AssetsScanState :=
  if tr.toUserAccount = wallet ∧ tr.tokenAmount = 1 ∧ tr.tokenStandard = "NonFungible" then
    if isPOAPorBadge tx.description then
      if (s.poapsDetected.find? (fun p => p.mint = tr.mint)).isSome then s
      else { s with poapsDetected :=
          s.poapsDetected ++ [⟨tr.mint, AssetType.poap, tx.timestamp⟩] }
    else
      if (s.nftsDetected.find? (fun n => n.mint = tr.mint)).isSome then s
      else { s with nftsDetected :=
          s.nftsDetected ++ [⟨tr.mint, AssetType.nft, tx.timestamp⟩] }
  else s

/-- Token-transfer section of one transaction. -/
def assetTransferStep (wallet : String) (tx : ParsedTransaction)
    (st : AssetsScanState) : AssetsScanState :=
  tx.tokenTransfers.foldl (assetTransferOne wallet tx) st

/-- Per-transaction step of the asset scan: NFT events, domains, then
token transfers. -/
def assetsTxStep (wallet : String) (st : AssetsScanState)
    (tx : ParsedTransaction) : AssetsScanState :=
  assetTransferStep wallet tx (assetDomainStep tx (assetEventStep wallet tx st))

/-- Exposure bucketing of the weighted identity score. -/
def calculateExposureLevel (nftCount poapCount domainCount : Nat) : ExposureLevel :=
  let totalScore := nftCount + poapCount * 2 + domainCount * 3
  if totalScore = 0 then ExposureLevel.none
  else if totalScore ≤ 2 then ExposureLevel.low
  else if totalScore ≤ 5 then ExposureLevel.medium
  else ExposureLevel.high

/-- Identity-asset detector. -/
def detectIdentityAssets (transactions : List ParsedTransaction)
    (walletAddress : String) : AssetsDetectionResult :=
  let st := transactions.foldl (assetsTxStep walletAddress) ⟨[], [], []⟩
  { detected := !st.nftsDetected.isEmpty || !st.poapsDetected.isEmpty
      || !st.solDomainsDetected.isEmpty,
    nftsDetected := st.nftsDetected,
    solDomainsDetected := st.solDomainsDetected,
    poapsDetected := st.poapsDetected,
    identityExposureLevel := calculateExposureLevel st.nftsDetected.length
      st.poapsDetected.length st.solDomainsDetected.length,
    riskContribution :=
      min (st.poapsDetected.length * POINT_DEDUCTIONS_NFT_POAP_EXPOSED +
           st.solDomainsDetected.length * POINT_DEDUCTIONS_SOL_DOMAIN_EXPOSED) 30 }

/-! ## Claim C9 -/

def scenarioC9Tx : ParsedTransaction :=
  { signature := "sig9", timestamp := 1700000200,
    description := "Minted the same collectible twice",
    feePayer := scenarioATarget,
    accountData := [], tokenTransfers := [], nativeTransfers := [],
    nftEvent := Option.some
      { buyer := Option.some scenarioATarget,
        nfts := Option.some [⟨"MintM111111111111111111111111111111111111111", "NonFungible"⟩,
          ⟨"MintM111111111111111111111111111111111111111", "NonFungible"⟩] } }

/-- C9 counterexample: an NFT event listing the same mint twice (target
is the buyer, non-POAP description) yields two nftsDetected records with
the same mint, so the NFT-event pass does not deduplicate by mint. -/
theorem claim9_counterexample :
    ((detectIdentityAssets [scenarioC9Tx] scenarioATarget).nftsDetected.map
      (fun asset => asset.mint)) =
      ["MintM111111111111111111111111111111111111111",
       "MintM111111111111111111111111111111111111111"]
    ∧ ¬ ((detectIdentityAssets [scenarioC9Tx] scenarioATarget).nftsDetected.map
      (fun asset => asset.mint)).Nodup := by
  constructor
  · rfl
  · intro hnodup
    have h1 : ((detectIdentityAssets [scenarioC9Tx] scenarioATarget).nftsDetected.map
        (fun asset => asset.mint)) =
        ["MintM111111111111111111111111111111111111111",
         "MintM111111111111111111111111111111111111111"] := rfl
    rw [h1] at hnodup
    simp at hnodup

theorem not_mem_map_mint_of_find_none (l : List NFTAsset) (m : String)
    (h : ¬ (l.find? (fun p => p.mint = m)).isSome = true) :
    ¬ m ∈ l.map (fun a => a.mint) := by
  intro hmem
  rw [List.mem_map] at hmem
  obtain ⟨asset, hassetMem, hassetMint⟩ := hmem
  apply h
  rw [List.find?_isSome]
  exact ⟨asset, hassetMem, by rw [decide_eq_true_eq]; exact hassetMint⟩

theorem nodup_map_mint_append (l : List NFTAsset) (x : NFTAsset)
    (hn : (l.map (fun a => a.mint)).Nodup)
    (hx : ¬ x.mint ∈ l.map (fun a => a.mint)) :
    ((l ++ [x]).map (fun a => a.mint)).Nodup := by
  rw [List.map_append, List.nodup_append]
  refine ⟨hn, List.nodup_singleton _, ?_⟩
  intro y hy hmem
  simp only [List.map_cons, List.map_nil, List.mem_singleton] at hmem
  rw [hmem] at hy
  exact hx hy

theorem nodupMints_assetTransferOne (wallet : String) (tx : ParsedTransaction)
    (s : AssetsScanState) (tr : TokenTransfer)
    (hn : (s.nftsDetected.map (fun a => a.mint)).Nodup)
    (hpn : (s.poapsDetected.map (fun a => a.mint)).Nodup) :
    ((assetTransferOne wallet tx s tr).nftsDetected.map (fun a => a.mint)).Nodup
    ∧ ((assetTransferOne wallet tx s tr).poapsDetected.map (fun a => a.mint)).Nodup := by
  unfold assetTransferOne
  split_ifs with hc hpoap hfp hfn
  · exact ⟨hn, hpn⟩
  · exact ⟨hn, nodup_map_mint_append _ _ hpn
      (not_mem_map_mint_of_find_none _ _ hfp)⟩
  · exact ⟨hn, hpn⟩
  · exact ⟨nodup_map_mint_append _ _ hn
      (not_mem_map_mint_of_find_none _ _ hfn), hpn⟩
  · exact ⟨hn, hpn⟩

theorem nodupMints_assetTransferStep (wallet : String) (tx : ParsedTransaction)
    (st : AssetsScanState)
    (hn : (st.nftsDetected.map (fun a => a.mint)).Nodup)
    (hpn : (st.poapsDetected.map (fun a => a.mint)).Nodup) :
    ((assetTransferStep wallet tx st).nftsDetected.map (fun a => a.mint)).Nodup
    ∧ ((assetTransferStep wallet tx st).poapsDetected.map (fun a => a.mint)).Nodup := by
  unfold assetTransferStep
  induction tx.tokenTransfers generalizing st with
  | nil => exact ⟨hn, hpn⟩
  | cons tr rest ih =>
    rw [List.foldl_cons]
    have hone := nodupMints_assetTransferOne wallet tx st tr hn hpn
    exact ih _ hone.1 hone.2

/-- C9 (amended): deduplication by mint holds for the token-transfer
pass — when no transaction carries an NFT event, every mint occurs at
most once in nftsDetected and at most once in poapsDetected; the
NFT-event pass itself performs no mint-deduplication. -/
theorem claim9_transfer_dedup_amended :
    ∀ (txs : List ParsedTransaction) (wallet : String),
      (∀ tx ∈ txs, tx.nftEvent = Option.none) →
      ((detectIdentityAssets txs wallet).nftsDetected.map (fun a => a.mint)).Nodup
      ∧ ((detectIdentityAssets txs wallet).poapsDetected.map (fun a => a.mint)).Nodup := by
  intro txs wallet hev
  have hmain : ∀ (l : List ParsedTransaction) (st : AssetsScanState),
      (∀ tx ∈ l, tx.nftEvent = Option.none) →
      (st.nftsDetected.map (fun a => a.mint)).Nodup →
      (st.poapsDetected.map (fun a => a.mint)).Nodup →
      ((l.foldl (assetsTxStep wallet) st).nftsDetected.map (fun a => a.mint)).Nodup
      ∧ ((l.foldl (assetsTxStep wallet) st).poapsDetected.map (fun a => a.mint)).Nodup := by
    intro l
    induction l with
    | nil => exact fun st _ hn hpn => ⟨hn, hpn⟩
    | cons tx rest ih =>
      intro st hl hn hpn
      rw [List.foldl_cons]
      have hevent : assetEventStep wallet tx st = st := by
        unfold assetEventStep
        rw [hl tx (List.mem_cons_self _ _)]
      have hdomN : (assetDomainStep tx (assetEventStep wallet tx st)).nftsDetected =
          st.nftsDetected := by
        rw [hevent]
        unfold assetDomainStep
        split_ifs with hsol
        · cases hdom : extractDomainName tx with
          | none => rfl
          | some d =>
            show (if st.solDomainsDetected.contains d = true then st
              else { st with
                solDomainsDetected := st.solDomainsDetected ++ [d] }).nftsDetected =
              st.nftsDetected
            split_ifs <;> rfl
        · rfl
      have hdomP : (assetDomainStep tx (assetEventStep wallet tx st)).poapsDetected =
          st.poapsDetected := by
        rw [hevent]
        unfold assetDomainStep
        split_ifs with hsol
        · cases hdom : extractDomainName tx with
          | none => rfl
          | some d =>
            show (if st.solDomainsDetected.contains d = true then st
              else { st with
                solDomainsDetected := st.solDomainsDetected ++ [d] }).poapsDetected =
              st.poapsDetected
            split_ifs <;> rfl
        · rfl
      have hstep := nodupMints_assetTransferStep wallet tx
        (assetDomainStep tx (assetEventStep wallet tx st))
        (by rw [hdomN]; exact hn) (by rw [hdomP]; exact hpn)
      exact ih _ (fun t ht => hl t (List.mem_cons_of_mem _ ht)) hstep.1 hstep.2
  exact hmain txs ⟨[], [], []⟩ hev (by simp) (by simp)

theorem claim9_transfer_dedup_witness :
    ((detectIdentityAssets [] "w").nftsDetected.map (fun a => a.mint)).Nodup
    ∧ ((detectIdentityAssets [] "w").poapsDetected.map (fun a => a.mint)).Nodup :=
  claim9_transfer_dedup_amended [] "w" (by simp)

/-! ## Compliance screener (services/range.ts)

The wall-clock `checkedAt` field and the `catch` fallback (unreachable in
this total model) are omitted.  JavaScript 32-bit arithmetic is modelled
with explicit wrapping into the signed 32-bit range; `charCodeAt` and
`Char.toNat` agree on the basic-plane strings involved. -/

inductive RiskStatus
  | Clean
  | Sanctioned
  | Flagged
  | Unknown
deriving DecidableEq

structure RangeDetails where
  sanctionLists : List String
  flags : List String
  linkedToMixer : Bool
  linkedToExploit : Bool
deriving DecidableEq

structure RangeCheckResult where
  address : String
  status : RiskStatus
  riskScore : Nat
  details : RangeDetails
deriving DecidableEq

def MOCK_SANCTIONED_ADDRESSES : List String :=
  ["7eEqn3zGpQqq8fYjzqhfvwRRRVrBe3D3P4YfZ12GsAC1",
   "CnK9VjRNgSJcq1UR89J8RmMNPSYKe2qkM4eRLmWMKPxn",
   "Hp9SQbMoEhN9GwK1fY8xEyJBpDHZtCxXhpKA5KZjKekW"]

def MOCK_FLAGGED_ADDRESSES : List String :=
  ["E6tYH8TcVpzWS7YfcM9cKH8NbxRcPQjKJqvUTWKD9FqN",
   "3JQRMn5sFjE7M3YPdCkL8KZKvN2qnhXTxmRYJWPsZKaB"]

/-- Wrap an integer into the signed 32-bit range (JavaScript `| 0` and
`& hash` coercion). -/
def toInt32 (n : Int) : Int := (n + 2 ^ 31) % 2 ^ 32 - 2 ^ 31

/-- One step of the polynomial rolling hash:
`hash = (hash << 5) - hash + charCode; hash = hash & hash`. -/
def hashStep (h : Int) (c : Char) : Int :=
  toInt32 (toInt32 (h * 32) - h + (c.toNat : Int))

/-- Deterministic string hash of the source (absolute value of the
wrapped polynomial hash). -/
def hashAddress (address : String) : Nat :=
  (address.data.foldl hashStep 0).natAbs

/-- Compliance check: malformed address yields Unknown, then the fixed
sanctioned and flagged lists, else Clean with the hash-derived
pseudo-score `hashAddress address % 30`. -/
def checkRisk (address : String) : RangeCheckResult :=
  if address = "" ∨ address.length < 32 ∨ 44 < address.length then
    ⟨address, RiskStatus.Unknown, 0, ⟨[], ["Invalid address format"], false, false⟩⟩
  else if MOCK_SANCTIONED_ADDRESSES.contains address then
    ⟨address, RiskStatus.Sanctioned, 100,
      ⟨["OFAC SDN", "EU Sanctions List"],
       ["Linked to illicit activities", "On government watchlist"], true, false⟩⟩
  else if MOCK_FLAGGED_ADDRESSES.contains address then
    ⟨address, RiskStatus.Flagged, 65,
      ⟨[], ["Suspicious activity patterns", "Under investigation"], false, false⟩⟩
  else
    ⟨address, RiskStatus.Clean, hashAddress address % 30, ⟨[], [], false, false⟩⟩

structure AddressRisks where
  sanctionedAddresses : List String
  flaggedAddresses : List String
  totalChecked : Nat
deriving DecidableEq

/-- Batch screening of the counterparty map: partition by status, count
every checked entry. -/
def checkInteractingAddresses (addresses : List (String × Nat)) : AddressRisks :=
  ⟨(addresses.map Prod.fst).filter
      (fun a => decide ((checkRisk a).status = RiskStatus.Sanctioned)),
   (addresses.map Prod.fst).filter
      (fun a => decide ((checkRisk a).status = RiskStatus.Flagged)),
   addresses.length⟩

/-- One transfer of the counterparty extraction
(`HeliusService.getInteractingAddresses`). -/
def interactionOne (wallet : String) (m : List (String × Nat))
    (fromA toA : String) : List (String × Nat) :=
  let otherAddress := if fromA = wallet then toA else fromA
  if ¬ otherAddress = "" ∧ ¬ otherAddress = wallet then bumpCount m otherAddress else m

/-- Counterparty-interaction map used to drive the compliance batch check. -/
def getInteractingAddresses (transactions : List ParsedTransaction)
    (walletAddress : String) : List (String × Nat) :=
  transactions.foldl (fun m tx =>
    tx.tokenTransfers.foldl
      (fun m2 tr => interactionOne walletAddress m2 tr.fromUserAccount tr.toUserAccount)
      (tx.nativeTransfers.foldl
        (fun m2 tr => interactionOne walletAddress m2 tr.fromUserAccount tr.toUserAccount)
        m)) []

/-! ## Claim C4 -/

/-- C4: the compliance screener is a pure, deterministic function of the
address — two results of checkRisk on the same address have identical
status and riskScore — and every Clean result carries the stable string
hash of the address reduced mod 30.  The source adds only a wall-clock
`checkedAt` stamp on top of these fields. -/
theorem claim4_checkRisk_deterministic :
    (∀ (address : String) (r1 r2 : RangeCheckResult),
      r1 = checkRisk address → r2 = checkRisk address →
      r1.status = r2.status ∧ r1.riskScore = r2.riskScore)
    ∧ (∀ address : String, (checkRisk address).status = RiskStatus.Clean →
        (checkRisk address).riskScore = hashAddress address % 30) := by
  constructor
  · intro a r1 r2 h1 h2
    rw [h1, h2]
    exact ⟨rfl, rfl⟩
  · intro a hclean
    unfold checkRisk at hclean ⊢
    split_ifs at hclean ⊢ with h1 h2 h3
    rfl

theorem claim4_checkRisk_witness :
    ((checkRisk scenarioATarget).status = (checkRisk scenarioATarget).status
      ∧ (checkRisk scenarioATarget).riskScore = (checkRisk scenarioATarget).riskScore)
    ∧ (checkRisk scenarioATarget).riskScore = hashAddress scenarioATarget % 30 :=
  ⟨claim4_checkRisk_deterministic.1 scenarioATarget
      (checkRisk scenarioATarget) (checkRisk scenarioATarget) rfl rfl,
   claim4_checkRisk_deterministic.2 scenarioATarget (by decide)⟩

/-! ## Risk aggregator (engine.ts) -/

structure Warning where
  severity : String
  category : String
  message : String
deriving DecidableEq

structure Recommendation where
  priority : String
  category : String
  action : String
  tool : Option String
  toolUrl : Option String
deriving DecidableEq

structure RecommendedTool where
  name : String
  description : String
  url : String
  useCase : String
deriving DecidableEq

def RECOMMENDED_TOOLS : List RecommendedTool := [
  ⟨"Privacy Cash", "Break the on-chain link between your wallets using Privacy Cash mixer",
    "https://privacycash.io", "CEX_DEPOSIT"⟩,
  ⟨"Radr Labs", "Advanced wallet obfuscation and privacy-preserving transactions",
    "https://radrlabs.io", "CLUSTER_DETECTED"⟩,
  ⟨"Range Protocol", "Compliance-friendly privacy layer with regulatory clarity",
    "https://range.org", "SANCTIONED_INTERACTION"⟩,
  ⟨"Elusiv", "Zero-knowledge private transactions on Solana",
    "https://elusiv.io", "GENERAL_PRIVACY"⟩,
  ⟨"Light Protocol", "ZK compression for private state on Solana",
    "https://lightprotocol.com", "GENERAL_PRIVACY"⟩]

/-- First registered tool for a use case (`RECOMMENDED_TOOLS.find`). -/
def findTool (useCase : String) : Option RecommendedTool :=
  RECOMMENDED_TOOLS.find? (fun tool => tool.useCase = useCase)

structure Deduction where
  reason : String
  points : Int
deriving DecidableEq

structure ScoreInput where
  cexResult : CEXDetectionResult
  clusteringResult : ClusteringResult
  assetsResult : AssetsDetectionResult
  complianceResult : RangeCheckResult
  addressRisks : AddressRisks
  washTradingDetected : Bool
deriving DecidableEq

def clusterPatternName : ClusterPattern → String
  | ClusterPattern.none => "none"
  | ClusterPattern.single_counterparty => "single_counterparty"
  | ClusterPattern.small_cluster => "small_cluster"
  | ClusterPattern.wash_trading => "wash_trading"
  | ClusterPattern.funnel => "funnel"

/-- One conditional deduction of the aggregator: subtract the points and
append a reason entry when the trigger holds. -/
def applyDeduction (st : Int × List Deduction) (cond : Bool) (reason : String)
    (points : Nat) : Int × List Deduction :=
  if cond then (st.1 - points, st.2 ++ [⟨reason, (points : Int)⟩]) else st

def scoreAfterCex (input : ScoreInput) : Int × List Deduction :=
  applyDeduction (100, []) (decide (0 < input.cexResult.riskContribution))
    ("CEX activity (" ++ toString input.cexResult.totalCEXTransactions ++ " transactions)")
    input.cexResult.riskContribution

def scoreAfterClustering (input : ScoreInput) : Int × List Deduction :=
  applyDeduction (scoreAfterCex input) (decide (0 < input.clusteringResult.riskContribution))
    ("Clustering pattern: " ++ clusterPatternName input.clusteringResult.pattern)
    input.clusteringResult.riskContribution

def scoreAfterAssets (input : ScoreInput) : Int × List Deduction :=
  applyDeduction (scoreAfterClustering input) (decide (0 < input.assetsResult.riskContribution))
    "Identity-revealing assets" input.assetsResult.riskContribution

/-- Compliance status of the target wallet: Sanctioned deducts 50,
Flagged deducts 25, anything else deducts nothing. -/
def scoreAfterCompliance (input : ScoreInput) : Int × List Deduction :=
  if input.complianceResult.status = RiskStatus.Sanctioned then
    ((scoreAfterAssets input).1 - 50,
     (scoreAfterAssets input).2 ++ [⟨"Wallet on sanctions list", 50⟩])
  else if input.complianceResult.status = RiskStatus.Flagged then
    ((scoreAfterAssets input).1 - 25,
     (scoreAfterAssets input).2 ++ [⟨"Wallet flagged for suspicious activity", 25⟩])
  else scoreAfterAssets input

def scoreAfterSanctioned (input : ScoreInput) : Int × List Deduction :=
  applyDeduction (scoreAfterCompliance input)
    (decide (0 < input.addressRisks.sanctionedAddresses.length))
    ("Interacted with " ++ toString input.addressRisks.sanctionedAddresses.length ++
      " sanctioned address(es)")
    (min (input.addressRisks.sanctionedAddresses.length * 20) 40)

def scoreAfterWash (input : ScoreInput) : Int × List Deduction :=
  applyDeduction (scoreAfterSanctioned input) input.washTradingDetected
    "Wash trading pattern detected" 15

/-- Aggregated privacy score: 100 minus the triggered deductions, clamped
to [0, 100] (`Math.max(0, Math.min(100, score))`), with the ordered
deduction log. -/
def calculatePrivacyScore (input : ScoreInput) : Int × List Deduction :=
  (max 0 (min 100 (scoreAfterWash input).1), (scoreAfterWash input).2)

/-- Risk tier thresholds, first match wins, evaluated low-to-high. -/
def determineRiskLevel (score : Int) : RiskLevel :=
  if score ≤ SCORE_THRESHOLDS_CRITICAL then RiskLevel.CRITICAL
  else if score ≤ SCORE_THRESHOLDS_HIGH then RiskLevel.HIGH
  else if score ≤ SCORE_THRESHOLDS_MEDIUM then RiskLevel.MEDIUM
  else RiskLevel.LOW

def getRiskDescription : RiskLevel → String
  | RiskLevel.CRITICAL =>
    "Critical privacy risk. Your wallet is highly traceable and may be linked to your identity."
  | RiskLevel.HIGH =>
    "High privacy risk. Significant linkages exist that could compromise your anonymity."
  | RiskLevel.MEDIUM =>
    "Moderate privacy risk. Some patterns could be used to link your activities."
  | RiskLevel.LOW =>
    "Good privacy posture. Minimal identifiable patterns detected."

/-- Severity order of the risk tiers (LOW least severe). -/
def severityRank : RiskLevel → Nat
  | RiskLevel.LOW => 0
  | RiskLevel.MEDIUM => 1
  | RiskLevel.HIGH => 2
  | RiskLevel.CRITICAL => 3

/-! ## Warnings and recommendations (detector helpers plus engine.ts) -/

def generateCEXWarnings (result : CEXDetectionResult) : List String :=
  result.deposits.map (fun d =>
    "Direct deposit from " ++ d.exchangeName ++
      " detected. This links your CEX KYC identity to this wallet.")
  ++ result.withdrawals.map (fun w =>
    "Withdrawal to " ++ w.exchangeName ++
      " detected. Your wallet activity is now linked to your exchange account.")

def generateCEXActions (result : CEXDetectionResult) : List String :=
  (if 0 < result.deposits.length then
    ["Consider using Privacy Cash to create a clean wallet for future DeFi activities.",
     "Use intermediate wallets between CEX and your main DeFi wallet."]
   else [])
  ++ (if 0 < result.withdrawals.length then
    ["Before depositing to CEX, route through an intermediate wallet.",
     "Consider using compliant privacy solutions like Elusiv for future transactions."]
   else [])
  ++ (if 1 < result.exchangesInvolved.length then
    ["Multiple exchanges linked to this wallet - consider compartmentalizing with separate wallets."]
   else [])

/-- Fixed-point display with one decimal (model of `Number.toFixed(1)`,
round half up; display-only). -/
def ratToFixed1 (x : Rat) : String :=
  let n : Int := (x * 10 + 1 / 2).floor
  toString (n / 10) ++ "." ++ toString (n % 10)

def generateClusteringWarnings (result : ClusteringResult) : List String :=
  if result.detected = false then []
  else
    match result.pattern with
    | ClusterPattern.single_counterparty =>
      [ratToFixed1 result.clusteringPercentage ++
        "% of transactions are with a single address. This creates a clear link between your wallets."]
    | ClusterPattern.small_cluster =>
      ["Your transactions are concentrated among just " ++
        toString result.topAddresses.length ++
        " addresses. This clustering pattern can be used to link your wallets."]
    | ClusterPattern.wash_trading =>
      ["Suspicious back-and-forth transaction pattern detected. This behavior is easily identifiable on-chain."]
    | ClusterPattern.funnel =>
      ["Funnel pattern detected: many sources funneling to few destinations. This pattern suggests wallet consolidation."]
    | ClusterPattern.none => []

def generateClusteringActions (result : ClusteringResult) : List String :=
  if result.detected = false then []
  else
    ["Use Radr Labs to break wallet clustering patterns and obfuscate your transaction graph."]
    ++ (if result.pattern = ClusterPattern.single_counterparty then
      ["Diversify your transaction patterns - use multiple intermediate wallets."]
     else [])
    ++ (if result.pattern = ClusterPattern.wash_trading then
      ["Avoid repetitive back-and-forth transactions with the same address."]
     else [])
    ++ ["Consider using Elusiv for private transactions that don\x27t create linkable patterns."]

def generateAssetWarnings (result : AssetsDetectionResult) : List String :=
  (if 0 < result.poapsDetected.length then
    [toString result.poapsDetected.length ++
      " POAPs/event badges detected. These can reveal your real-world identity and event attendance."]
   else [])
  ++ result.solDomainsDetected.map (fun domain =>
    ".sol domain \"" ++ domain ++
      "\" linked to this wallet. Domains are public and can deanonymize your wallet.")
  ++ (if 5 ≤ result.nftsDetected.length then
    [toString result.nftsDetected.length ++
      " NFTs detected. NFT ownership patterns can be used for fingerprinting."]
   else [])

def generateAssetActions (result : AssetsDetectionResult) : List String :=
  (if 0 < result.poapsDetected.length then
    ["Transfer POAPs and event badges to a separate public-facing wallet."]
   else [])
  ++ (if 0 < result.solDomainsDetected.length then
    ["Use a dedicated public wallet for .sol domains, separate from your DeFi wallet."]
   else [])
  ++ (if result.identityExposureLevel = ExposureLevel.high then
    ["Consider creating a new anonymous wallet for privacy-sensitive activities."]
   else [])

/-- Warning collection in fixed detector order. -/
def collectWarnings (cexResult : CEXDetectionResult) (clusteringResult : ClusteringResult)
    (assetsResult : AssetsDetectionResult) (complianceResult : RangeCheckResult)
    (addressRisks : AddressRisks) : List Warning :=
  ((generateCEXWarnings cexResult).map (fun msg => ⟨"high", "CEX", msg⟩))
  ++ ((generateClusteringWarnings clusteringResult).map (fun msg => ⟨"medium", "Clustering", msg⟩))
  ++ ((generateAssetWarnings assetsResult).map (fun msg => ⟨"medium", "Identity", msg⟩))
  ++ (if complianceResult.status = RiskStatus.Sanctioned then
      [⟨"critical", "Compliance", "⚠️ CRITICAL: This wallet is on a sanctions list!"⟩]
    else if complianceResult.status = RiskStatus.Flagged then
      [⟨"high", "Compliance", "This wallet has been flagged for suspicious activity."⟩]
    else [])
  ++ (if 0 < addressRisks.sanctionedAddresses.length then
      [⟨"critical", "Compliance",
        "This wallet has interacted with " ++
          toString addressRisks.sanctionedAddresses.length ++ " sanctioned address(es)."⟩]
    else [])

/-- Recommendation generation in fixed detector order. -/
def generateRecommendations (cexResult : CEXDetectionResult)
    (clusteringResult : ClusteringResult) (assetsResult : AssetsDetectionResult)
    (complianceResult : RangeCheckResult) (score : Int) : List Recommendation :=
  ((generateCEXActions cexResult).map (fun action =>
    ⟨"high", "CEX", action, (findTool "CEX_DEPOSIT").map (fun t => t.name),
      (findTool "CEX_DEPOSIT").map (fun t => t.url)⟩))
  ++ ((generateClusteringActions clusteringResult).map (fun action =>
    ⟨"medium", "Clustering", action, (findTool "CLUSTER_DETECTED").map (fun t => t.name),
      (findTool "CLUSTER_DETECTED").map (fun t => t.url)⟩))
  ++ ((generateAssetActions assetsResult).map (fun action =>
    ⟨"medium", "Identity", action, Option.none, Option.none⟩))
  ++ (if ¬ complianceResult.status = RiskStatus.Clean then
      [⟨"high", "Compliance",
        "Consult Range Protocol for compliance review and remediation options.",
        (findTool "SANCTIONED_INTERACTION").map (fun t => t.name),
        (findTool "SANCTIONED_INTERACTION").map (fun t => t.url)⟩]
    else [])
  ++ (if score < 50 then
      [⟨"high", "General",
        "Consider creating a fresh wallet and using privacy-preserving tools for future transactions.",
        (findTool "GENERAL_PRIVACY").map (fun t => t.name),
        (findTool "GENERAL_PRIVACY").map (fun t => t.url)⟩]
    else [])

/-! ## Wallet analysis entry point (engine.ts, analyzeWallet)

The external services (transaction history fetch and balance lookup) are
passed in as already-materialized data; the compliance screener is the
pure `checkRisk` above.  The wall-clock metadata block is omitted.  In
the source the `catch` branch is reached exactly by thrown exceptions,
of which address validation is the pure one modelled here; service
failures are the fetch collaborator responsibility. -/

def isBase58Char (c : Char) : Bool :=
  decide (('1' ≤ c ∧ c ≤ '9') ∨ ('A' ≤ c ∧ c ≤ 'H') ∨ ('J' ≤ c ∧ c ≤ 'N')
    ∨ ('P' ≤ c ∧ c ≤ 'Z') ∨ ('a' ≤ c ∧ c ≤ 'k') ∨ ('m' ≤ c ∧ c ≤ 'z'))

/-- Address validation, `/^[1-9A-HJ-NP-Za-km-z]{32,44}$/`. -/
def isValidSolanaAddress (address : String) : Bool :=
  decide (32 ≤ address.length ∧ address.length ≤ 44) && address.data.all isBase58Char

structure DetectorResults where
  cex : CEXDetectionResult
  clustering : ClusteringResult
  assets : AssetsDetectionResult
  compliance : RangeCheckResult
  interactingAddressRisks : AddressRisks
deriving DecidableEq

structure FinancialExposure where
  exposedSol : Rat
  exposedUsd : Rat
  cexVolumeSol : Rat
deriving DecidableEq

structure PrivacyReport where
  walletAddress : String
  balance : Rat
  transactionsAnalyzed : Nat
  score : Int
  riskLevel : RiskLevel
  riskDescription : String
  warnings : List Warning
  actions : List Recommendation
  detectorResults : DetectorResults
  financialExposure : FinancialExposure
deriving DecidableEq

/-- Externally supplied data: the materialized transaction history and
the balance lookup result. -/
structure ExternalData where
  transactions : List ParsedTransaction
  balance : Rat
deriving DecidableEq

def SOL_PRICE_USD : Rat := 150

/-- Total CEX volume: sum of all deposit and withdrawal amounts
(`amount || 0`). -/
def cexVolumeSol (result : CEXDetectionResult) : Rat :=
  ((result.deposits.map (fun d => d.amount.getD 0)) ++
    (result.withdrawals.map (fun w => w.amount.getD 0))).foldl (fun s a => s + a) 0

/-- Degraded report returned by the `catch` branch. -/
def errorReport (address : String) (message : String) : PrivacyReport :=
  { walletAddress := address, balance := 0, transactionsAnalyzed := 0, score := 0,
    riskLevel := RiskLevel.CRITICAL,
    riskDescription := "Analysis failed - unable to assess privacy risk",
    warnings := [⟨"critical", "error", "Analysis error: " ++ message⟩],
    actions := [],
    detectorResults :=
      { cex := ⟨false, [], [], 0, [], 0⟩,
        clustering := ⟨false, 0, [], Option.none, 0, 0, 0, ClusterPattern.none⟩,
        assets := ⟨false, [], [], [], ExposureLevel.none, 0⟩,
        compliance := ⟨address, RiskStatus.Unknown, 0, ⟨[], [], false, false⟩⟩,
        interactingAddressRisks := ⟨[], [], 0⟩ },
    financialExposure := ⟨0, 0, 0⟩ }

/-- Detector outputs fed to the aggregator for a validated address. -/
def analyzeScoreInput (address : String) (ext : ExternalData) : ScoreInput :=
  ⟨detectCEXTransactions ext.transactions address,
   detectClustering ext.transactions address,
   detectIdentityAssets ext.transactions address,
   checkRisk address,
   checkInteractingAddresses (getInteractingAddresses ext.transactions address),
   (detectWashTrading ext.transactions address).detected⟩

/-- Success path of the analysis pipeline. -/
def analyzeWalletValid (address : String) (ext : ExternalData) : PrivacyReport :=
  { walletAddress := address,
    balance := ext.balance,
    transactionsAnalyzed := ext.transactions.length,
    score := (calculatePrivacyScore (analyzeScoreInput address ext)).1,
    riskLevel := determineRiskLevel (calculatePrivacyScore (analyzeScoreInput address ext)).1,
    riskDescription := getRiskDescription
      (determineRiskLevel (calculatePrivacyScore (analyzeScoreInput address ext)).1),
    warnings := collectWarnings (detectCEXTransactions ext.transactions address)
      (detectClustering ext.transactions address)
      (detectIdentityAssets ext.transactions address)
      (checkRisk address)
      (checkInteractingAddresses (getInteractingAddresses ext.transactions address)),
    actions := generateRecommendations (detectCEXTransactions ext.transactions address)
      (detectClustering ext.transactions address)
      (detectIdentityAssets ext.transactions address)
      (checkRisk address)
      (calculatePrivacyScore (analyzeScoreInput address ext)).1,
    detectorResults :=
      ⟨detectCEXTransactions ext.transactions address,
       detectClustering ext.transactions address,
       detectIdentityAssets ext.transactions address,
       checkRisk address,
       checkInteractingAddresses (getInteractingAddresses ext.transactions address)⟩,
    financialExposure :=
      ⟨max (cexVolumeSol (detectCEXTransactions ext.transactions address)) ext.balance,
       max (cexVolumeSol (detectCEXTransactions ext.transactions address)) ext.balance *
         SOL_PRICE_USD,
       cexVolumeSol (detectCEXTransactions ext.transactions address)⟩ }

/-- Wallet analysis: an address failing base58 validation short-circuits
to the degraded report (the thrown error is caught in the same function);
a valid address runs the full pipeline. -/
def analyzeWallet (address : String) (ext : ExternalData) : PrivacyReport :=
  if isValidSolanaAddress address then analyzeWalletValid address ext
  else errorReport address ("Invalid Solana address: " ++ address)

/-! ## Claim C1 -/

theorem applyDeduction_points_nonneg (st : Int × List Deduction) (cond : Bool)
    (reason : String) (points : Nat) (h : ∀ d ∈ st.2, 0 ≤ d.points) :
    ∀ d ∈ (applyDeduction st cond reason points).2, 0 ≤ d.points := by
  unfold applyDeduction
  cases cond with
  | false => simpa using h
  | true =>
    intro d hd
    simp only [if_true] at hd
    rw [List.mem_append] at hd
    rcases hd with hd | hd
    · exact h d hd
    · rw [List.mem_singleton] at hd
      rw [hd]
      exact Int.natCast_nonneg points

theorem scoreAfterCompliance_points_nonneg (input : ScoreInput)
    (h : ∀ d ∈ (scoreAfterAssets input).2, 0 ≤ d.points) :
    ∀ d ∈ (scoreAfterCompliance input).2, 0 ≤ d.points := by
  unfold scoreAfterCompliance
  split_ifs with h1 h2
  · intro d hd
    rw [List.mem_append] at hd
    rcases hd with hd | hd
    · exact h d hd
    · rw [List.mem_singleton] at hd
      rw [hd]
      norm_num
  · intro d hd
    rw [List.mem_append] at hd
    rcases hd with hd | hd
    · exact h d hd
    · rw [List.mem_singleton] at hd
      rw [hd]
      norm_num
  · exact h

theorem calculatePrivacyScore_points_nonneg (input : ScoreInput) :
    ∀ d ∈ (calculatePrivacyScore input).2, 0 ≤ d.points := by
  have h0 : ∀ d ∈ ((100 : Int), ([] : List Deduction)).2, 0 ≤ d.points := by simp
  have h1 : ∀ d ∈ (scoreAfterCex input).2, 0 ≤ d.points :=
    applyDeduction_points_nonneg _ _ _ _ h0
  have h2 : ∀ d ∈ (scoreAfterClustering input).2, 0 ≤ d.points :=
    applyDeduction_points_nonneg _ _ _ _ h1
  have h3 : ∀ d ∈ (scoreAfterAssets input).2, 0 ≤ d.points :=
    applyDeduction_points_nonneg _ _ _ _ h2
  have h4 := scoreAfterCompliance_points_nonneg input h3
  have h5 : ∀ d ∈ (scoreAfterSanctioned input).2, 0 ≤ d.points :=
    applyDeduction_points_nonneg _ _ _ _ h4
  have h6 : ∀ d ∈ (scoreAfterWash input).2, 0 ≤ d.points :=
    applyDeduction_points_nonneg _ _ _ _ h5
  exact h6

theorem calculatePrivacyScore_bounds (input : ScoreInput) :
    0 ≤ (calculatePrivacyScore input).1 ∧ (calculatePrivacyScore input).1 ≤ 100 := by
  have h1 : (calculatePrivacyScore input).1 =
      max 0 (min 100 (scoreAfterWash input).1) := rfl
  rw [h1]
  exact ⟨le_max_left 0 _, max_le (by norm_num) (min_le_left 100 _)⟩

/-- C1: the aggregated privacy score is always in [0, 100] — it starts at
100, every logged deduction is non-negative, and the result is clamped —
and the score carried in the final Report (valid or degraded) is likewise
in [0, 100]. -/
theorem claim1_score_bounds :
    (∀ input : ScoreInput,
      (0 ≤ (calculatePrivacyScore input).1 ∧ (calculatePrivacyScore input).1 ≤ 100)
      ∧ (∀ d ∈ (calculatePrivacyScore input).2, 0 ≤ d.points))
    ∧ (∀ (address : String) (ext : ExternalData),
        0 ≤ (analyzeWallet address ext).score ∧ (analyzeWallet address ext).score ≤ 100) := by
  constructor
  · intro input
    exact ⟨calculatePrivacyScore_bounds input, calculatePrivacyScore_points_nonneg input⟩
  · intro address ext
    unfold analyzeWallet
    split_ifs with hv
    · exact calculatePrivacyScore_bounds (analyzeScoreInput address ext)
    · constructor <;> norm_num [errorReport]

def witnessScoreInput : ScoreInput :=
  ⟨⟨false, [], [], 0, [], 0⟩,
   ⟨false, 0, [], Option.none, 0, 0, 0, ClusterPattern.none⟩,
   ⟨false, [], [], [], ExposureLevel.none, 0⟩,
   ⟨"w", RiskStatus.Clean, 0, ⟨[], [], false, false⟩⟩,
   ⟨[], [], 0⟩, true⟩

theorem claim1_score_bounds_witness :
    (0 ≤ (calculatePrivacyScore witnessScoreInput).1
      ∧ (calculatePrivacyScore witnessScoreInput).1 ≤ 100)
    ∧ 0 ≤ (Deduction.mk "Wash trading pattern detected" 15).points :=
  ⟨(claim1_score_bounds.1 witnessScoreInput).1,
   (claim1_score_bounds.1 witnessScoreInput).2
     ⟨"Wash trading pattern detected", 15⟩ (by decide)⟩

/-! ## Claim C2 -/

/-- C2: the risk tier follows the four-bucket rule with first-match-wins
evaluated low-to-high — the boundaries 25, 50, 75 map to CRITICAL, HIGH,
MEDIUM — and the tier severity is a non-increasing step function of the
score. -/
theorem claim2_risk_tier :
    (determineRiskLevel 25 = RiskLevel.CRITICAL
      ∧ determineRiskLevel 50 = RiskLevel.HIGH
      ∧ determineRiskLevel 75 = RiskLevel.MEDIUM)
    ∧ (∀ s : Int,
        (s ≤ 25 → determineRiskLevel s = RiskLevel.CRITICAL)
        ∧ (25 < s ∧ s ≤ 50 → determineRiskLevel s = RiskLevel.HIGH)
        ∧ (50 < s ∧ s ≤ 75 → determineRiskLevel s = RiskLevel.MEDIUM)
        ∧ (75 < s → determineRiskLevel s = RiskLevel.LOW))
    ∧ (∀ s t : Int, s ≤ t →
        severityRank (determineRiskLevel t) ≤ severityRank (determineRiskLevel s)) := by
  refine ⟨⟨rfl, rfl, rfl⟩, ?_, ?_⟩
  · intro s
    refine ⟨?_, ?_, ?_, ?_⟩
    · intro h
      unfold determineRiskLevel SCORE_THRESHOLDS_CRITICAL
      rw [if_pos h]
    · rintro ⟨h1, h2⟩
      unfold determineRiskLevel SCORE_THRESHOLDS_CRITICAL SCORE_THRESHOLDS_HIGH
      rw [if_neg (by omega), if_pos h2]
    · rintro ⟨h1, h2⟩
      unfold determineRiskLevel SCORE_THRESHOLDS_CRITICAL SCORE_THRESHOLDS_HIGH
        SCORE_THRESHOLDS_MEDIUM
      rw [if_neg (by omega), if_neg (by omega), if_pos h2]
    · intro h
      unfold determineRiskLevel SCORE_THRESHOLDS_CRITICAL SCORE_THRESHOLDS_HIGH
        SCORE_THRESHOLDS_MEDIUM
      rw [if_neg (by omega), if_neg (by omega), if_neg (by omega)]
  · intro s t hst
    unfold determineRiskLevel SCORE_THRESHOLDS_CRITICAL SCORE_THRESHOLDS_HIGH
      SCORE_THRESHOLDS_MEDIUM
    split_ifs <;> simp only [severityRank] <;> omega

theorem claim2_risk_tier_witness :
    determineRiskLevel 10 = RiskLevel.CRITICAL
    ∧ severityRank (determineRiskLevel 80) ≤ severityRank (determineRiskLevel 10) :=
  ⟨(claim2_risk_tier.2.1 10).1 (by norm_num),
   claim2_risk_tier.2.2 10 80 (by norm_num)⟩

/-! ## Claim C3 -/

/-- C3: for every address failing the base58 32-44 validation and every
external data, analyzeWallet returns the degraded report — score 0, tier
CRITICAL, exactly one critical-severity warning naming the
invalid-address error — and, being a total function, lets no exception
escape. -/
theorem claim3_invalid_address :
    ∀ (address : String) (ext : ExternalData),
      isValidSolanaAddress address = false →
      ((analyzeWallet address ext).score = 0
       ∧ (analyzeWallet address ext).riskLevel = RiskLevel.CRITICAL
       ∧ (analyzeWallet address ext).warnings =
           [⟨"critical", "error", "Analysis error: Invalid Solana address: " ++ address⟩]) := by
  intro address ext h
  have hcond : ¬ (isValidSolanaAddress address = true) := by
    rw [h]
    simp
  unfold analyzeWallet
  rw [if_neg hcond]
  exact ⟨rfl, rfl, rfl⟩

theorem claim3_invalid_address_witness :
    isValidSolanaAddress "abcdefghij" = false
    ∧ ((analyzeWallet "abcdefghij" ⟨[], 0⟩).score = 0
       ∧ (analyzeWallet "abcdefghij" ⟨[], 0⟩).riskLevel = RiskLevel.CRITICAL
       ∧ (analyzeWallet "abcdefghij" ⟨[], 0⟩).warnings =
           [⟨"critical", "error", "Analysis error: Invalid Solana address: " ++ "abcdefghij"⟩]) :=
  ⟨by decide, claim3_invalid_address "abcdefghij" ⟨[], 0⟩ (by decide)⟩

end Scope
